import Mathlib

set_option maxRecDepth 4000

/-!
Verification development for the `attributes_extraction_using_llms` repository.

The repository is a Python pipeline that enriches e-commerce item records:
four taxonomy-level classifiers (`flask_apis/api_master_pipeline.py` and
`app.py`), keyword generators (SKW/DSW), an attribute extractor, and an
image-attribute aggregator with majority voting
(`image-feature-extraction/json_api_9_image_features.py` and
`image-feature-extraction/extract_image_features.py`).

The Python string processing is embedded shallowly over `List Char`:
Python's `str.strip`, `str.lower`, `str.split`, `str.replace`,
`str.title`, substring tests and `int()` parsing are modelled by
executable Lean functions defined below.  The external LLM completion
service is modelled as an oracle: the classifier functions take the raw
response text as a parameter (the prompt only influences that response,
so it is not modelled), and functions that must distinguish transport
failure take `Except Unit String`.  A Python exception escaping a
function is modelled by an `Option`-valued result being `none`.

The taxonomy tables of the master pipeline live in a `mapping.py` module
that is not part of the sources here; the classifiers are therefore
parameterized by those tables, and theorems quantify over them.  The
tables of `app.py` are present in the sources and are transcribed
verbatim.
-/

abbrev Chars := List Char

/-- The apostrophe character (U+0027), written via its code point. -/
def squote : Char := Char.ofNat 39

/-- Python `str.strip()` (both-ends whitespace strip), on char lists. -/
def pyStrip (l : Chars) : Chars :=
  ((l.dropWhile Char.isWhitespace).reverse.dropWhile Char.isWhitespace).reverse

/-- Python `str.lower()` (ASCII model). -/
def lowerChars (l : Chars) : Chars := l.map Char.toLower

/-- Python `s.replace(c, "")` for a single-character pattern `c`. -/
def removeChar (c : Char) (l : Chars) : Chars := l.filter (fun x => x ≠ c)

/-- Python `s.replace(a, b)` for single characters `a`, `b`. -/
def replaceChar (a b : Char) (l : Chars) : Chars :=
  l.map (fun c => if c = a then b else c)

/-- Split a char list at every position satisfying `p`, keeping empty pieces,
like Python `s.split(sep)` for a one-character separator. -/
def splitPred (p : Char → Bool) : Chars → List Chars
  | [] => [[]]
  | c :: cs =>
    match splitPred p cs with
    | [] => [[]]
    | h :: t => if p c then [] :: h :: t else (c :: h) :: t

/-- Python `s.split(",")`-style split on one separator character. -/
def splitChar (sep : Char) (l : Chars) : List Chars :=
  splitPred (fun c => c = sep) l

/-- Python `s.split()` with no argument: split on whitespace runs and drop
empty pieces. -/
def pySplitWs (l : Chars) : List Chars :=
  (splitPred Char.isWhitespace l).filter (fun p => p ≠ [])

/-- Locate the first occurrence of `sep` in a list: `some (before, after)`
where `after` is everything past that occurrence, or `none` when `sep`
does not occur.  Models Python's `sep in s` test and `s.split(sep)`
(via repeated application). -/
def breakOn (sep : Chars) : Chars → Option (Chars × Chars)
  | [] => none
  | c :: cs =>
    if sep.isPrefixOf (c :: cs) then some ([], (c :: cs).drop sep.length)
    else
      match breakOn sep cs with
      | none => none
      | some (a, b) => some (c :: a, b)

/-- Python `sub in s` substring containment (for nonempty `sub`). -/
def containsSub (sub l : Chars) : Bool := (breakOn sub l).isSome

/-- Numeric value of an all-digit, nonempty char list; `none` otherwise.
Models the strings accepted by Python `int()` (sign handled in `pyInt`). -/
def digitsVal (l : Chars) : Option Nat :=
  if l = [] then none
  else if l.all Char.isDigit then
    some (l.foldl (fun acc c => acc * 10 + (c.toNat - 48)) 0)
  else none

/-- Python `int(s)` on a pre-stripped string: optional sign then digits;
`none` models the `ValueError` the surrounding `try/except` turns into 0. -/
def pyInt (l : Chars) : Option Int :=
  match l with
  | '-' :: rest => (digitsVal rest).map (fun n => -(n : Int))
  | '+' :: rest => (digitsVal rest).map (fun n => (n : Int))
  | _ => (digitsVal l).map (fun n => (n : Int))

/-- Deduplicate keeping the first occurrence of each element, like
iteration order of a Python `set`-guarded append loop or `dict` keys. -/
def firstDedup {α : Type} [DecidableEq α] : List α → List α
  | [] => []
  | x :: xs => x :: (firstDedup xs).filter (fun y => y ≠ x)

/-- One step of Python `str.title()`: the Boolean says whether the previous
character was alphabetic (cased). -/
def titleAux : Bool → Chars → Chars
  | _, [] => []
  | prev, c :: cs =>
    (if c.isAlpha then (if prev then c.toLower else c.toUpper) else c) ::
      titleAux c.isAlpha cs

/-- Python `str.title()` (ASCII model): first letter of every word
upper-cased, subsequent letters lower-cased. -/
def pyTitle (l : Chars) : Chars := titleAux false l

/-- Python `s.splitlines()[0]` on a string `s`: `none` models the
`IndexError` raised on the empty string, otherwise the prefix before the
first line-break character. -/
def splitlinesFirst (l : Chars) : Option Chars :=
  if l = [] then none
  else some (l.takeWhile (fun c => !(c = '\n' || c = '\r')))

/-- Lower-case a `String` (Python `str.lower()`, ASCII model). -/
def pyLowerStr (s : String) : String := ⟨lowerChars s.data⟩

/-- Python `str.strip()` on a `String`. -/
def pyStripStr (s : String) : String := ⟨pyStrip s.data⟩

/-! ## Master pipeline classifiers (`flask_apis/api_master_pipeline.py`)

`run_model` posts the prompt and returns `r.json()["response"].strip()`;
transport errors (`raise_for_status`) propagate as exceptions.  The pure
classifier embeddings below take the raw response text and apply the
`strip` themselves; the `Except`-valued variants model the transport
channel. -/

/-- The separator literal `"|confidence"` used by the response contract. -/
def confidenceSep : Chars := "|confidence".data

/-- Parse step of API 2 (`classify_shopping_subcategory`): on the cleaned
first line, split on `"|confidence"`; with a separator present, the label
is `parts[0].strip()` and the confidence is
`int(parts[1].strip().replace("%","").strip())` with `int` failures
giving 0; without it, the whole trimmed string is the label with
confidence 0. -/
def api2_parse (r : Chars) : Chars × Int :=
  match breakOn confidenceSep r with
  | some (before, after) =>
    let part1 :=
      match breakOn confidenceSep after with
      | some (a, _) => a
      | none => after
    (pyStrip before, (pyInt (pyStrip (removeChar '%' (pyStrip part1)))).getD 0)
  | none => (pyStrip r, 0)

/-- Cleaning plus parsing of API 2: `result.lower().strip().splitlines()[0]`
(`none` when the response strips to empty, modelling the `IndexError`),
then removal of `'`, `"`, `:` and a strip, then `api2_parse`. -/
def api2_parsed (response : String) : Option (Chars × Int) :=
  (splitlinesFirst (pyStrip (lowerChars (pyStrip response.data)))).map
    (fun line => api2_parse (pyStrip (removeChar ':' (removeChar '"' (removeChar squote line)))))

/-- Body of `classify_shopping_subcategory` after the guard: parse the
response, then validate the label by membership in the lower-cased
allowed list, resetting to `("", 0)` on failure. -/
def classify_shopping_subcategory_core (subcategory_list : List String)
    (response : String) : Option (String × Int) :=
  (api2_parsed response).map (fun p =>
    if (subcategory_list.map pyLowerStr).contains ⟨p.1⟩ then ((⟨p.1⟩ : String), p.2)
    else ("", 0))

/-- `classify_shopping_subcategory(shopping_category, …)` of the master
pipeline.  The second component counts completion-service calls.  The
guard `if not shopping_category or shopping_category not in
shoppingSubcategory_map` returns `("", 0)` before any call. -/
def classify_shopping_subcategory (map : List (String × List String))
    (shopping_category : String) (response : String) :
    Option (String × Int) × Nat :=
  if shopping_category = "" ∨ map.lookup shopping_category = none then
    (some ("", 0), 0)
  else
    (classify_shopping_subcategory_core ((map.lookup shopping_category).getD []) response, 1)

/-- Parse step of API 3 / API 4: label is `parts[0].strip().replace(":","")`,
confidence is `int(parts[1].replace("%","").replace(":","").strip())`
with failures giving 0; without the separator, the whole trimmed string
with confidence 0. -/
def api3_parse (r : Chars) : Chars × Int :=
  match breakOn confidenceSep r with
  | some (before, after) =>
    let part1 :=
      match breakOn confidenceSep after with
      | some (a, _) => a
      | none => after
    (removeChar ':' (pyStrip before),
      (pyInt (pyStrip (removeChar ':' (removeChar '%' part1)))).getD 0)
  | none => (pyStrip r, 0)

/-- Cleaning plus parsing of API 3 / API 4:
`result.lower().replace("'","").replace('"',"").strip()` then `api3_parse`. -/
def api3_parsed (response : String) : Chars × Int :=
  api3_parse (pyStrip (removeChar '"' (removeChar squote (lowerChars (pyStrip response.data)))))

/-- Body of `classify_item_category` after the guards: parse, then validate
by (case-sensitive) membership in the allowed list, resetting to
`("", 0)` on failure. -/
def classify_item_category_core (item_category_list : List String)
    (response : String) : String × Int :=
  let p := api3_parsed response
  if item_category_list.contains ⟨p.1⟩ then ((⟨p.1⟩ : String), p.2) else ("", 0)

/-- `classify_item_category(shopping_category, shopping_subcategory, …)` of
the master pipeline, with completion-call count. -/
def classify_item_category (map : List (String × List (String × List String)))
    (shopping_category shopping_subcategory : String) (response : String) :
    (String × Int) × Nat :=
  if shopping_category = "" ∨ shopping_subcategory = "" then (("", 0), 0)
  else
    match map.lookup shopping_category with
    | none => (("", 0), 0)
    | some inner =>
      match inner.lookup shopping_subcategory with
      | none => (("", 0), 0)
      | some lst => (classify_item_category_core lst response, 1)

/-- Body of `classify_item_subcategory` after the guards (same parsing and
validation code as API 3). -/
def classify_item_subcategory_core (item_subcategory_list : List String)
    (response : String) : String × Int :=
  let p := api3_parsed response
  if item_subcategory_list.contains ⟨p.1⟩ then ((⟨p.1⟩ : String), p.2) else ("", 0)

/-- `classify_item_subcategory(shopping_category, shopping_subcategory,
item_category, …)` of the master pipeline: the map is keyed by shopping
category then item category, and the guard also requires the three
ancestor labels to be nonempty. -/
def classify_item_subcategory (map : List (String × List (String × List String)))
    (shopping_category shopping_subcategory item_category : String)
    (response : String) : (String × Int) × Nat :=
  if shopping_category = "" ∨ shopping_subcategory = "" ∨ item_category = "" then (("", 0), 0)
  else
    match map.lookup shopping_category with
    | none => (("", 0), 0)
    | some inner =>
      match inner.lookup item_category with
      | none => (("", 0), 0)
      | some lst => (classify_item_subcategory_core lst response, 1)

/-! ## API 1 (`classify_shopping_category`, master pipeline)

The parse uses `re.findall(r"([a-z\s&]+)\|confidence[:\s]*([0-9]{1,3})%", result)`
and keeps the first match.  Because `|` is not in the first character
class and a digit is not in `[:\s]`, the regex engine's greedy matching
with backtracking succeeds at a given start position exactly when a
nonempty run of `[a-z\s&]` characters is immediately followed by
`|confidence`, then a run of `:`/whitespace, then one to three digits
immediately followed by `%`; `findall` scans start positions left to
right. -/

/-- Membership in the regex character class `[a-z\s&]`. -/
def isClassA (c : Char) : Bool := c.isWhitespace || (c.isLower) || c = '&'

/-- Attempt the API-1 regex match anchored at the start of `l`, returning
the two capture groups (label run, confidence digits value). -/
def regexTryMatch (l : Chars) : Option (Chars × Nat) :=
  let g1 := l.takeWhile isClassA
  if g1 = [] then none
  else
    let r1 := l.drop g1.length
    if confidenceSep.isPrefixOf r1 then
      let r2 := r1.drop confidenceSep.length
      let sep := r2.takeWhile (fun c => c = ':' || c.isWhitespace)
      let r3 := r2.drop sep.length
      let ds := r3.takeWhile Char.isDigit
      if 1 ≤ ds.length ∧ ds.length ≤ 3 ∧ (r3.drop ds.length).head? = some '%' then
        some (g1, (digitsVal ds).getD 0)
      else none
    else none

/-- Leftmost match of the API-1 regex (`re.findall(...)[0]`). -/
def regexFindFirst : Chars → Option (Chars × Nat)
  | [] => none
  | c :: cs =>
    match regexTryMatch (c :: cs) with
    | some m => some m
    | none => regexFindFirst cs

/-- `classify_shopping_category` of the master pipeline: clean the
response, take the first regex match (label := group 1 stripped,
confidence := group 2) or `("", 0)`, then validate the label against the
`shoppingCategory` list, resetting to `("", 0)` on failure. -/
def classify_shopping_category (shoppingCategory : List String)
    (response : String) : String × Int :=
  let cleaned := pyStrip (removeChar '"' (removeChar squote (lowerChars (pyStrip response.data))))
  match regexFindFirst cleaned with
  | some (g1, conf) =>
    let category : String := ⟨pyStrip g1⟩
    if shoppingCategory.contains category then (category, (conf : Int)) else ("", 0)
  | none => ("", 0)

/-! ## SKW generation (`json_apis/json_api_5_skw_generation.py`, identical
post-processing in `flask_apis/api_master_pipeline.py` `generate_skw`) -/

/-- `product_noun = item_name.lower().replace("-", " ").split()[-1]`;
`none` models the `IndexError` when there is no token. -/
def skw_product_noun (item_name : String) : Option Chars :=
  (pySplitWs (replaceChar '-' ' ' (lowerChars item_name.data))).getLast?

/-- The `final_keywords` list of `generate_skw`, before title-casing and
joining: normalize and comma-split the response, keep phrases containing
the product noun, force the noun to the front, deduplicate preserving
order, and cap at 5.  `none` models the `IndexError` of the noun
derivation. -/
def skw_final_keywords (item_name : String) (response : String) :
    Option (List Chars) :=
  match skw_product_noun item_name with
  | none => none
  | some noun =>
    let r := lowerChars (pyStrip (removeChar squote (removeChar '"' (removeChar '\n' (pyStrip response.data)))))
    let keywords0 := ((splitChar ',' r).map pyStrip).filter (fun k => k ≠ [])
    let keywords1 := keywords0.filter (fun kw => containsSub noun kw)
    let keywords2 :=
      if keywords1 = [] ∨ keywords1.head? ≠ some noun then
        noun :: keywords1.filter (fun kw => kw ≠ noun)
      else keywords1
    some ((firstDedup keywords2).take 5)

/-- `generate_skw(item_name, item_category)`: the returned string is the
title-cased keyword list joined with `", "`.  The category only appears
in the prompt.  `none` models the `IndexError` escaping the call. -/
def generate_skw (item_name : String) (response : String) : Option String :=
  (skw_final_keywords item_name response).map
    (fun l => ⟨List.intercalate (", ".data) (l.map pyTitle)⟩)

/-- `generate_dsw`: normalization only
(`result.replace("\n","").replace('"',"").replace("'","").strip().lower()`). -/
def generate_dsw (response : String) : String :=
  ⟨lowerChars (pyStrip (removeChar squote (removeChar '"' (removeChar '\n' (pyStrip response.data)))))⟩

/-- `extract_ai_attributes`: normalization only
(`result.replace("\r", "").strip()`). -/
def extract_ai_attributes (response : String) : String :=
  ⟨pyStrip (removeChar '\r' (pyStrip response.data))⟩

/-! ## Master pipeline row processing (`process_csv_pipeline` loop body) -/

/-- The columns written for one row by `process_csv_pipeline`. -/
structure CsvRow where
  shoppingCategory : String
  confidence : Int
  shoppingSubcategory : String
  subcategory_confidence : Int
  itemCategory : String
  itemCategory_confidence : Int
  itemSubcategory : String
  itemSubcategory_confidence : Int
  SKW : String
  DSW : String
  AI_Attributes : String
deriving DecidableEq, Repr

/-- One iteration of the `process_csv_pipeline` row loop: the four
classifiers chained on their raw outputs, then SKW, DSW and attribute
extraction.  `o1`–`o7` are the completion-service responses of the seven
calls in order.  `none` models an exception escaping the row (which the
endpoint's `try` turns into an aborted request). -/
def process_csv_row (cats : List String) (subMap : List (String × List String))
    (icMap iscMap : List (String × List (String × List String)))
    (item_name : String) (o1 o2 o3 o4 o5 o6 o7 : String) : Option CsvRow :=
  let l1 := classify_shopping_category cats o1
  match (classify_shopping_subcategory subMap l1.1 o2).1 with
  | none => none
  | some l2 =>
    let l3 := (classify_item_category icMap l1.1 l2.1 o3).1
    let l4 := (classify_item_subcategory iscMap l1.1 l2.1 l3.1 o4).1
    match generate_skw item_name o5 with
    | none => none
    | some skw =>
      some ⟨l1.1, l1.2, l2.1, l2.2, l3.1, l3.2, l4.1, l4.2,
        skw, generate_dsw o6, extract_ai_attributes o7⟩

/-! ## Transport failure (`run_model` versus `ollama_local`)

`run_model` (master pipeline) calls `r.raise_for_status()` with no
`try/except` around it or around the classifier bodies, so transport and
parsing exceptions propagate.  `ollama_local` (`app.py`) wraps its call
in `try/except` and returns `""` on any exception. -/

/-- `run_model` on a transport outcome: success yields the stripped
response text, failure re-raises (propagates the `Except.error`). -/
def run_modelE (svc : Except Unit String) : Except Unit String :=
  match svc with
  | Except.ok s => Except.ok (pyStripStr s)
  | Except.error e => Except.error e

/-- `classify_shopping_subcategory` of the master pipeline over the
transport channel: the guard needs no service call; otherwise the
response is obtained through `run_modelE`, whose failure propagates out
of the classifier. -/
def classify_shopping_subcategoryE (map : List (String × List String))
    (shopping_category : String) (svc : Except Unit String) :
    Except Unit (Option (String × Int)) :=
  if shopping_category = "" ∨ map.lookup shopping_category = none then
    Except.ok (some ("", 0))
  else
    match run_modelE svc with
    | Except.error e => Except.error e
    | Except.ok s =>
      Except.ok (classify_shopping_subcategory_core ((map.lookup shopping_category).getD []) s)

/-- `ollama_local` (`app.py`): returns the stripped completion text, or
`""` when any exception occurs during the call. -/
def ollama_local (svc : Except Unit String) : String :=
  match svc with
  | Except.ok s => pyStripStr s
  | Except.error _ => ""

/-- `chatgpt` (`app.py`): same absorbing behaviour as `ollama_local`. -/
def chatgpt (svc : Except Unit String) : String :=
  match svc with
  | Except.ok s => pyStripStr s
  | Except.error _ => ""

/-! ## `app.py` taxonomy tables (transcribed verbatim) -/

/-- `shopping_categories` of `app.py` (Level 1). -/
def shopping_categories : List String :=
  ["stationary", "restaurants", "electronics", "pharmacies", "pet care", "home and garden",
   "beauty", "entertainment", "health and nutrition", "groceries", "fashion",
   "automotive", "sports", "kids", "flowers and gifts"]

def fashion_subcategories : List String :=
  ["baby clothes", "undergarments", "accessories", "casual wear", "home decor", "beach wear",
   "outerwear", "neckwear and scarf", "formal wear", "sports wear", "swimwear", "designer wear",
   "sports", "outdoor sports", "footwear", "martial arts", "sleepwear", "medical wear",
   "kids wear", "jewelry", "religious wear", "fitness and training", "maternity", "water sports",
   "eyewear"]

def beauty_subcategories : List String :=
  ["skincare", "haircare", "fragrances", "cosmetics"]

def home_subcategories : List String :=
  ["drinkware", "home decor", "hardware and home improvement", "tableware", "lighting",
   "kitchenwear", "gardening and outdoor", "bakeware", "outdoor sports", "household products",
   "storage and organization", "appliances", "home essentials", "bed and bath",
   "fitness and training", "furniture", "kitchenware"]

def stationary_subcategory : List String :=
  ["office supplies", "stationary", "stationary supplies", "arts and crafts", "school supplies",
   "stationary accessories"]

def restaurants_subcategory : List String :=
  ["desserts", "mexican", "pizza", "specialty foods", "egyptian", "burgers", "korean",
   "fast food", "street food", "restaurants", "japanese", "italian", "cafes", "mediterranean",
   "vegan", "salads", "asian", "vietnamese", "lebanese", "international", "pasta", "chinese",
   "bakery and cakes", "french", "juices & drinks", "thai", "sandwiches", "seafood", "sushi",
   "keto", "grills", "healthy", "vegetarian", "indian", "american", "middle eastern",
   "juices and drinks"]

def pharmacies_subcategory : List String :=
  ["sportswear", "specialty foods", "first aid and medical equipment", "haircare",
   "dietary supplements", "men's care", "vitamins", "skincare", "women's deodorant", "medicine",
   "eye care", "dental care", "incontinence", "women's care"]

def pet_care_subcategory : List String :=
  ["aquatic animals", "horses", "dogs", "birds", "small pet supplies", "cats"]

def sports_subcategory : List String :=
  ["outdoor sports", "sports", "footwear", "team sports", "winter sports",
   "recreational activities", "swimwear", "fitness and training", "accessories", "water sports",
   "martial arts", "sportswear"]

def entertainment_subcategory : List String :=
  ["books", "gaming", "music", "musical instruments", "toys and games", "musical equipment"]

def health_and_nutrition_subcategory : List String :=
  ["natural solutions", "weight management", "specialty foods", "men's care",
   "performance supplements", "protein products", "vitamins", "dietary supplements"]

def groceries_subcategory : List String :=
  ["salads", "supermarkets", "specialty foods", "mini marts", "bakery and cakes", "desserts",
   "cafes"]

def automotive_subcategory : List String :=
  ["auto accessories", "motorcycle care"]

def kids_subcategory : List String :=
  ["baby safety products", "baby care", "baby furniture", "kids furniture", "baby travel",
   "baby clothes", "swimwear", "kids furniture accessory", "toys and games"]

def flowers_and_gifts_subcategory : List String :=
  ["flowers", "gifts"]

/-- `subcategory_map` of `app.py` (Level 2 allowed sets keyed by Level 1). -/
def subcategory_map : List (String × List String) :=
  [("fashion", fashion_subcategories),
   ("beauty", beauty_subcategories),
   ("home and garden", home_subcategories),
   ("stationary", stationary_subcategory),
   ("restaurants", restaurants_subcategory),
   ("pharmacies", pharmacies_subcategory),
   ("pet care", pet_care_subcategory),
   ("sports", sports_subcategory),
   ("entertainment", entertainment_subcategory),
   ("health and nutrition", health_and_nutrition_subcategory),
   ("groceries", groceries_subcategory),
   ("gifts and flowers", flowers_and_gifts_subcategory),
   ("automotive", automotive_subcategory),
   ("kids", kids_subcategory),
   ("flowers and gifts", flowers_and_gifts_subcategory)]

/-- `fashion_item_categories` of `app.py` (Level 3, fashion). -/
def fashion_item_categories : List (String × List String) :=
  [("baby clothes", ["onesie", "diaper shirt", "babygrow", "lap tee", "romper", "baby shoe",
     "jumpsuit", "baby sock", "baby gown", "baby mitten", "diaper cover", "baby leggings",
     "bloomers", "baby accessory"]),
   ("undergarments", ["undershirt", "nightgown", "bra", "camisole", "panty", "baby doll",
     "boxers", "slip", "briefs", "corset"]),
   ("accessories", ["belt", "bag", "headwear", "hair accessories", "glove", "umbrella",
     "wallet", "luggage", "briefcase", "trunk", "laptopcase", "hand fan", "watch"]),
   ("casual wear", ["apron", "top", "trousers", "blouse", "t-shirt", "shirt", "vest", "pants",
     "shorts", "leggings", "skirt", "dress", "outfit", "skort"]),
   ("beach wear", ["bathing cover"]),
   ("outerwear", ["sweatshirt", "sweater", "tank top", "jacket", "coat", "overalls", "jeans",
     "kimono"]),
   ("neckwear and scarf", ["tie", "shawl", "ascot", "pashmina", "boa", "scarf", "handkerchief",
     "bandana"]),
   ("formal wear", ["blazer", "suit", "uniform", "rope"]),
   ("sports wear", ["sportswear"]),
   ("swimwear", ["swimsuit"]),
   ("footwear", ["sandals", "slippers", "boot", "sports shoe", "shoe", "stocking", "sock",
     "shoe accessory"]),
   ("sleepwear", ["pajamas"]),
   ("jewelry", ["earrings", "necklace", "bracelet", "broche", "pendant", "cufflink",
     "head ornament", "jewelry box", "ring", "jewelry set", "tie pin"]),
   ("religious wear", ["islamic religious wear", "christian religious wear"]),
   ("maternity", ["maternity"]),
   ("eyewear", ["glasses", "sunglasses"])]

/-- `beauty_item_categories` of `app.py` (Level 3, beauty). -/
def beauty_item_categories : List (String × List String) :=
  [("skincare", ["foot care", "hand care", "loofah and sponge", "cotton", "hair removal",
     "face treatment", "anti-aging", "eye treatment", "acne", "skin whitening", "dark spot",
     "sunscreen", "face soap", "face scrub", "face toner", "face moisturizer", "face cleanser",
     "face mask", "hand soap", "body scrub", "bath soap", "bath salt", "bath cream",
     "shower gel", "body moisturizer", "body oil", "face roller", "skincare accessory",
     "injectables", "skincare set"]),
   ("haircare", ["hair gel", "hair brush and comb", "hair mousse", "hair styling tool",
     "hair wax", "hair dye", "hair spray", "hair loss", "hair cream", "hair shampoo",
     "hair conditioner", "hair oil", "hair mask", "hair serum", "haircare set",
     "hair treatment"]),
   ("fragrances", ["body spray", "cologne", "perfume"]),
   ("cosmetics", ["eye make-up", "lip make-up", "face make-up", "nailcare",
     "cosmetics accessory", "make-up tool", "body make-up", "cosmetic set"])]

/-- `home_item_categories` of `app.py` (Level 3, home and garden). -/
def home_item_categories : List (String × List String) :=
  [("drinkware", ["cup", "glass", "mug", "wine glass", "champagne flute", "martini glass",
     "beer glass", "sake cup", "sherry glass", "shot glass", "cognac glass", "margarira glass",
     "brandy glass", "whisky glass", "rummer", "tumbler", "teacup", "beaker", "coaster",
     "pitcher", "carafe", "jar", "wine opener", "flask", "trembleuse", "straw",
     "drinkware accessory"]),
   ("home decor", ["wallpaper", "clock", "candle", "vase", "tapestery", "wall art",
     "picture frame", "decorative plate", "home scent", "incense", "mirror", "potpurri",
     "home decor accessory"]),
   ("hardware and home improvement", ["home tool", "measuring tool", "plumbing tool",
     "electrical tool", "power tool", "hand tool", "welding", "duct tape", "cord", "flashlight",
     "nail and screw", "fastener and snap", "padlock", "shelf support", "window hardware",
     "home automation device"]),
   ("tableware", ["cutlery", "plate and bowl", "table linen"]),
   ("lighting", ["wall lighting", "lamp", "chandlier", "light bulb", "underwater lighting",
     "lighting accessory", "ceiling lighting", "floor lighting", "outdoor lighting",
     "lighting system"]),
   ("kitchenwear", ["cooking utensil", "cooking tool", "speciality cookwear", "ovenware",
     "pot and pan", "kitchen accessory"]),
   ("gardening and outdoor", ["gardening tool", "gardening equipment", "gardening care",
     "pool equipment"]),
   ("bakeware", ["baking pan", "bakeware utensil", "bakeware accessory"]),
   ("household products", ["cleaning tool", "cleaning products", "house supply"]),
   ("storage and organization", ["office storage and organization",
     "clothing storage and organization", "bathroom storage and organization",
     "bedroom storage and organization", "kitchen storage and organization",
     "outdoor storage and organization", "kids storage and organization",
     "garage storage and organization"]),
   ("appliances", ["personal appliances", "kitchen appliance", "home appliance",
     "heating and cooling unit", "cleaning appliance", "specialty appliance"]),
   ("bed and bath", ["bath linen", "bath accessory", "bathroom hardware", "bedding"]),
   ("furniture", ["bedroom furniture", "kitchen furniture", "bathroom furniture",
     "dining room furniture", "living room furniture", "office furniture", "outdoor furniture",
     "furniture accessory", "kids furniture"]),
   ("kitchenware", ["french press", "percolator", "coffee pot", "tea pot", "tea strainer",
     "cookware set", "double boiler", "braiser", "saucier"])]

/-- `stationary_item_categories` of `app.py` (Level 3, stationary). -/
def stationary_item_categories : List (String × List String) :=
  [("office supplies", ["scissors", "sharpener", "desk organizer", "paper puncher", "notebook",
     "chalk board", "desk planner", "white board", "writing pad", "chalk", "stapler",
     "calendar", "sticky note", "folder", "crayon", "tack", "agenda", "sheet protector",
     "clip board", "photo album", "cork board", "office supply accessories"]),
   ("stationary", ["stationary"]),
   ("stationary supplies", ["document holder", "tape", "eraser", "glue", "pencil", "pen",
     "paper clip", "marker", "compass", "book cover", "bookmark", "ruler"]),
   ("arts and crafts", ["craft supply", "knitting", "sewing", "jewelry making", "painting",
     "drawing", "pottery", "sculpting", "basket making", "candle making", "doll making",
     "craft fabric", "floral arranging", "weaving", "print making", "arts and crafts set"]),
   ("school supplies", ["notebook", "writing pad", "chalk board", "chalk", "folder", "crayon",
     "pencil case", "clip board", "pencil holder", "cork board", "book cover", "bookmark",
     "school supply accessories", "ruler"]),
   ("stationary accessories", ["keychain", "pencil case", "pencil holder"])]

/-- `category_item_map` of `app.py` (Level 3 allowed sets keyed by Level 1
then Level 2). -/
def category_item_map : List (String × List (String × List String)) :=
  [("fashion", fashion_item_categories),
   ("beauty", beauty_item_categories),
   ("home and garden", home_item_categories),
   ("stationary", stationary_item_categories)]

/-! ## `app.py` classifiers and `process_row` -/

/-- Response cleaning shared by the `app.py` classifiers:
`result.strip().lower()` (or `.lower()` after `ollama_local`'s strip)
followed by `.replace("'","").replace('"',"").replace(":","").strip()`. -/
def app_clean (result : String) : String :=
  ⟨pyStrip (removeChar ':' (removeChar '"' (removeChar squote (lowerChars (pyStrip result.data)))))⟩

/-- `classify_shopping_category` of `app.py`: cleaned response must be a
member of `shopping_categories`, otherwise `""`. -/
def classify_shopping_category_app (svc : Except Unit String) : String :=
  let r := app_clean (ollama_local svc)
  if shopping_categories.contains r then r else ""

/-- `classify_shopping_subcategory` of `app.py`: guard on the Level-1
label, then validate the cleaned response against the allowed list. -/
def classify_shopping_subcategory_app (main_cat : String)
    (svc : Except Unit String) : String :=
  if main_cat = "" ∨ subcategory_map.lookup main_cat = none then ""
  else
    let allowed := (subcategory_map.lookup main_cat).getD []
    let r := app_clean (ollama_local svc)
    if allowed.contains r then r else ""

/-- `classify_item_category` of `app.py`: guards on the Level-1 and
Level-2 labels, then validate the cleaned response. -/
def classify_item_category_app (main_cat sub_cat : String)
    (svc : Except Unit String) : String :=
  if main_cat = "" ∨ category_item_map.lookup main_cat = none then ""
  else if sub_cat = "" ∨ ((category_item_map.lookup main_cat).getD []).lookup sub_cat = none then ""
  else
    let allowed := (((category_item_map.lookup main_cat).getD []).lookup sub_cat).getD []
    let r := app_clean (ollama_local svc)
    if allowed.contains r then r else ""

/-- `generate_skw` of `app.py`: one `chatgpt` call, no post-processing; the
item name and vendor category only shape the prompt. -/
def generate_skw_app (svc : Except Unit String) : String := chatgpt svc

/-- `generate_dsw` of `app.py`: one `ollama_local` call, no post-processing. -/
def generate_dsw_app (svc : Except Unit String) : String := ollama_local svc

/-- `generate_ai_attributes` of `app.py`: one `chatgpt` call; the
`item_category` argument appears only in the prompt. -/
def generate_ai_attributes_app (svc : Except Unit String) : String := chatgpt svc

/-- Result of `process_row` (`app.py`), extended with a trace of the
arguments the orchestrator actually passed into each dependent stage:
`arg_level2_main_cat` is the `shopping_category` handed to
`classify_shopping_subcategory`, `arg_level3_*` the pair handed to
`classify_item_category`, `arg_ai_item_category` the `item_category`
handed to `generate_ai_attributes`. -/
structure RowTrace where
  shopping_category : String
  shopping_subcategory : String
  item_category : String
  skw : String
  dsw : String
  ai_attributes : String
  arg_level2_main_cat : String
  arg_level3_main_cat : String
  arg_level3_sub_cat : String
  arg_ai_item_category : String
deriving DecidableEq, Repr

/-- `process_row` of `app.py`: after each classifier, an empty label is
immediately replaced by the sentinel `"template"`, and the (possibly
substituted) variable is what the next stage receives.  `o1`–`o6` are the
outcomes of the six service calls in order. -/
def process_row (o1 o2 o3 o4 o5 o6 : Except Unit String) : RowTrace :=
  let sc0 := classify_shopping_category_app o1
  let shopping_category := if sc0 = "" then "template" else sc0
  let ssc0 := classify_shopping_subcategory_app shopping_category o2
  let shopping_subcategory := if ssc0 = "" then "template" else ssc0
  let ic0 := classify_item_category_app shopping_category shopping_subcategory o3
  let item_category := if ic0 = "" then "template" else ic0
  let skw := generate_skw_app o4
  let dsw := generate_dsw_app o5
  let ai := generate_ai_attributes_app o6
  ⟨shopping_category, shopping_subcategory, item_category, skw, dsw, ai,
   shopping_category, shopping_category, shopping_subcategory, item_category⟩

/-! ## Image feature extraction and majority voting
(`image-feature-extraction/json_api_9_image_features.py` and
`image-feature-extraction/extract_image_features.py`)

A per-image prediction set is an association list from attribute name to
`(value, confidence)`; confidences are modelled as rationals.  The vision
model itself is external: the per-image prediction sets are parameters. -/

/-- The sentinel "unknown" tokens filtered by the JSON API's voting. -/
def sentinel_values : List String := ["no", "n/a", "none", "unknown"]

/-- One image's prediction set: attribute ↦ (value, confidence). -/
abbrev ImgResult := List (String × String × ℚ)

/-- Vote collection of `extract_features_with_voting` (JSON API 9): one
`(value, confidence)` pair per image that predicts `attr`, discarding
predictions whose lower-cased value is a sentinel token. -/
def collect_votes (results : List ImgResult) (attr : String) :
    List (String × ℚ) :=
  results.filterMap (fun img =>
    match img.lookup attr with
    | none => none
    | some vc =>
      if sentinel_values.contains (pyLowerStr vc.1) then none else some vc)

/-- Vote collection of `extract_features` in
`extract_image_features.py`: identical, except that no sentinel filtering
is performed. -/
def collect_votes_nofilter (results : List ImgResult) (attr : String) :
    List (String × ℚ) :=
  results.filterMap (fun img => img.lookup attr)

/-- Number of votes for value `v` (`Counter(values)[v]`). -/
def vote_count (values : List String) (v : String) : Nat := values.count v

/-- Scan of candidate/count pairs keeping the earliest entry with the
strictly greatest count; models the stable descending sort behind
`Counter.most_common(1)[0]`. -/
def pick_first_max : List (String × Nat) → Option (String × Nat)
  | [] => none
  | p :: rest =>
    match pick_first_max rest with
    | none => some p
    | some b => if b.2 > p.2 then some b else some p

/-- `Counter(values).most_common(1)[0]`: the most frequent value with ties
broken by first insertion (= first occurrence) order. -/
def most_common_value (values : List String) : Option (String × Nat) :=
  pick_first_max ((firstDedup values).map (fun v => (v, vote_count values v)))

/-- The same selection written from the specification's words: the first
value, in first-occurrence order, whose count is maximal among all
surviving values. -/
def most_common_spec (values : List String) : Option (String × Nat) :=
  ((firstDedup values).find? (fun v =>
      values.all (fun u => vote_count values u ≤ vote_count values v))).map
    (fun v => (v, vote_count values v))

/-- An aggregated attribute value with its confidence. -/
structure Feature where
  value : String
  confidence : ℚ
deriving DecidableEq, Repr

/-- Per-attribute voting metadata recorded by the JSON API. -/
structure VoteDetail where
  votes : Nat
  total_images : Nat
  vote_percentage : ℚ
  all_values : List String
deriving DecidableEq, Repr

/-- Per-attribute aggregation of `extract_features_with_voting`: most
common surviving value, mean confidence over the votes for that value
only, and the voting metadata; `none` when no votes survive. -/
def aggregate_attr (pairs : List (String × ℚ)) :
    Option (Feature × VoteDetail) :=
  let values := pairs.map Prod.fst
  match most_common_value values with
  | none => none
  | some wc =>
    let avg := ((pairs.filter (fun p => p.1 = wc.1)).map Prod.snd).sum / (wc.2 : ℚ)
    some (⟨wc.1, avg⟩,
      ⟨wc.2, values.length, ((wc.2 : ℚ) / (values.length : ℚ)) * 100, values⟩)

/-- The metadata returned alongside the features by the JSON API. -/
inductive Meta where
  | single (warning : String)
  | voting (num_images : Nat) (voting_details : List (String × VoteDetail))
deriving DecidableEq, Repr

/-- Voting-detail table of a `Meta` value (empty for single-image). -/
def Meta.details : Meta → List (String × VoteDetail)
  | Meta.single _ => []
  | Meta.voting _ d => d

/-- `extract_features_with_voting` of JSON API 9 on the per-image
prediction sets: with exactly one nonempty prediction set, that set is
returned directly with sentinel-valued attributes dropped
(`method=single_image`); otherwise majority voting runs per requested
attribute, and attributes with zero surviving votes are left out of both
the features and the voting details. -/
def extract_features_with_voting (results : List ImgResult)
    (attributes : List String) : List (String × Feature) × Meta :=
  if results.length = 1 ∧ results.headD [] ≠ [] then
    let img := results.headD []
    let cleaned := img.filterMap (fun avc =>
      if sentinel_values.contains (pyLowerStr avc.2.1) then none
      else some (avc.1, Feature.mk avc.2.1 avc.2.2))
    (cleaned, Meta.single "Some features returned 'no'")
  else
    let fs := attributes.filterMap (fun attr =>
      (aggregate_attr (collect_votes results attr)).map (fun fd => (attr, fd.1)))
    let vd := attributes.filterMap (fun attr =>
      (aggregate_attr (collect_votes results attr)).map (fun fd => (attr, fd.2)))
    (fs, Meta.voting results.length vd)

/-- The majority-voting path of `extract_features` in
`extract_image_features.py`: same counting, selection and averaging code,
but over the unfiltered votes. -/
def extract_features_voting (results : List ImgResult)
    (attributes : List String) : List (String × Feature) :=
  attributes.filterMap (fun attr =>
    (aggregate_attr (collect_votes_nofilter results attr)).map
      (fun fd => (attr, fd.1)))

/-! ## SKW JSON endpoint (`json_apis/json_api_5_skw_generation.py`) -/

/-- Responses of the `/generate` endpoint. -/
inductive SkwResponse where
  | badRequest (error : String)
  | serverError
  | ok (skw : String)
deriving DecidableEq, Repr

/-- The `/generate` handler: rejects only a missing/empty `item_category`
with 400; any exception escaping `generate_skw` is caught by the outer
`try` and becomes a 500 response. -/
def generate_endpoint (item_name item_category : String)
    (response : String) : SkwResponse :=
  if item_category = "" then SkwResponse.badRequest "item_category is required"
  else
    match generate_skw item_name response with
    | none => SkwResponse.serverError
    | some s => SkwResponse.ok s

/-! ## Helper lemmas -/

theorem firstDedup_nodup {α : Type} [DecidableEq α] (l : List α) :
    (firstDedup l).Nodup := by
  induction l with
  | nil => simp [firstDedup]
  | cons x xs ih =>
    simp only [firstDedup, List.nodup_cons]
    refine ⟨fun hx => ?_, ih.filter _⟩
    have := List.of_mem_filter hx
    simp at this

theorem mem_firstDedup {α : Type} [DecidableEq α] {a : α} {l : List α} :
    a ∈ firstDedup l ↔ a ∈ l := by
  induction l with
  | nil => simp [firstDedup]
  | cons x xs ih =>
    simp only [firstDedup, List.mem_cons, List.mem_filter]
    constructor
    · rintro (rfl | ⟨h, _⟩)
      · exact Or.inl rfl
      · exact Or.inr (ih.mp h)
    · rintro (rfl | h)
      · exact Or.inl rfl
      · by_cases hax : a = x
        · exact Or.inl hax
        · exact Or.inr ⟨ih.mpr h, by simpa using hax⟩

theorem pick_first_max_eq_none {l : List (String × Nat)} :
    pick_first_max l = none ↔ l = [] := by
  cases l with
  | nil => simp [pick_first_max]
  | cons p rest =>
    simp only [pick_first_max]
    cases h : pick_first_max rest with
    | none => simp
    | some b => cases b with
      | mk bv bc => by_cases hb : bc > p.2 <;> simp [hb]

/-! ## Claims -/

/-- C2: for every level N > 1, if any required ancestor label passed in is
the empty string, or the taxonomy-map lookups keyed by the ancestors
fail, the level-N classifier returns `("", 0)` and issues zero
completion-service calls. -/
theorem claim_C2 :
    (∀ (map : List (String × List String)) (sc resp : String),
      (sc = "" ∨ map.lookup sc = none) →
      classify_shopping_subcategory map sc resp = (some ("", 0), 0)) ∧
    (∀ (map : List (String × List (String × List String))) (sc ssc resp : String),
      (sc = "" ∨ ssc = "" ∨ (map.lookup sc).bind (fun inner => inner.lookup ssc) = none) →
      classify_item_category map sc ssc resp = (("", 0), 0)) ∧
    (∀ (map : List (String × List (String × List String))) (sc ssc ic resp : String),
      (sc = "" ∨ ssc = "" ∨ ic = "" ∨ (map.lookup sc).bind (fun inner => inner.lookup ic) = none) →
      classify_item_subcategory map sc ssc ic resp = (("", 0), 0)) := by
  refine ⟨?_, ?_, ?_⟩
  · intro map sc resp h
    unfold classify_shopping_subcategory
    rw [if_pos h]
  · intro map sc ssc resp h
    unfold classify_item_category
    rcases h with h | h | h
    · rw [if_pos (Or.inl h)]
    · rw [if_pos (Or.inr h)]
    · by_cases hg : sc = "" ∨ ssc = ""
      · rw [if_pos hg]
      · rw [if_neg hg]
        cases hsc : map.lookup sc with
        | none => rfl
        | some inner =>
          rw [hsc] at h
          simp only [Option.some_bind] at h
          simp [h]
  · intro map sc ssc ic resp h
    unfold classify_item_subcategory
    rcases h with h | h | h | h
    · rw [if_pos (Or.inl h)]
    · rw [if_pos (Or.inr (Or.inl h))]
    · rw [if_pos (Or.inr (Or.inr h))]
    · by_cases hg : sc = "" ∨ ssc = "" ∨ ic = ""
      · rw [if_pos hg]
      · rw [if_neg hg]
        cases hsc : map.lookup sc with
        | none => rfl
        | some inner =>
          rw [hsc] at h
          simp only [Option.some_bind] at h
          simp [h]

/-- Witness for C2 at concrete inputs. -/
theorem claim_C2_witness :
    classify_shopping_subcategory [] "" "x" = (some ("", 0), 0) ∧
    classify_item_category [] "a" "" "x" = (("", 0), 0) ∧
    classify_item_subcategory [] "a" "b" "" "x" = (("", 0), 0) :=
  ⟨claim_C2.1 [] "" "x" (Or.inl rfl),
   claim_C2.2.1 [] "a" "" "x" (Or.inr (Or.inl rfl)),
   claim_C2.2.2 [] "a" "b" "" "x" (Or.inr (Or.inr (Or.inl rfl)))⟩

theorem contains_mem {α : Type} [BEq α] [LawfulBEq α] {l : List α} {a : α} :
    l.contains a = true ↔ a ∈ l := by
  simp [List.contains, List.elem_iff]

/-- C1: with a valid parent path (nonempty ancestors whose taxonomy
lookups succeed), a classifier's returned label is either `""` or a
member of the allowed set for that parent (lower-cased for API 2, which
compares case-insensitively; verbatim for API 3); and whenever the parsed
label fails the membership validation, the result is reset to
`("", 0)`. -/
theorem claim_C1 :
    (∀ (map : List (String × List String)) (sc : String) (list : List String)
        (resp lab : String) (conf : Int),
      map.lookup sc = some list → sc ≠ "" →
      ((classify_shopping_subcategory map sc resp).1 = some (lab, conf) →
        lab = "" ∨ lab ∈ list.map pyLowerStr) ∧
      (∀ p, api2_parsed resp = some p → (⟨p.1⟩ : String) ∉ list.map pyLowerStr →
        (classify_shopping_subcategory map sc resp).1 = some ("", 0))) ∧
    (∀ (map : List (String × List (String × List String))) (sc ssc : String)
        (inner : List (String × List String)) (list : List String)
        (resp lab : String) (conf : Int),
      map.lookup sc = some inner → inner.lookup ssc = some list →
      sc ≠ "" → ssc ≠ "" →
      ((classify_item_category map sc ssc resp).1 = (lab, conf) →
        lab = "" ∨ lab ∈ list) ∧
      ((⟨(api3_parsed resp).1⟩ : String) ∉ list →
        (classify_item_category map sc ssc resp).1 = ("", 0))) := by
  constructor
  · intro map sc list resp lab conf hmap hsc
    have hguard : ¬(sc = "" ∨ map.lookup sc = none) := by simp [hsc, hmap]
    unfold classify_shopping_subcategory
    rw [if_neg hguard, hmap]
    simp only [Option.getD_some]
    unfold classify_shopping_subcategory_core
    constructor
    · intro h
      cases hp : api2_parsed resp with
      | none => rw [hp] at h; simp at h
      | some p =>
        rw [hp] at h
        simp only [Option.map_some'] at h
        by_cases hmem : (list.map pyLowerStr).contains ⟨p.1⟩
        · rw [if_pos hmem] at h
          right
          have : lab = (⟨p.1⟩ : String) := by
            injection h with h1
            injection h1 with h2 h3
            exact h2.symm
          rw [this]
          exact contains_mem.mp hmem
        · rw [if_neg hmem] at h
          left
          injection h with h1
          injection h1 with h2 h3
          exact h2.symm
    · intro p hp hmem
      rw [hp]
      simp only [Option.map_some']
      rw [if_neg (fun hc => hmem (contains_mem.mp hc))]
  · intro map sc ssc inner list resp lab conf hmap hinner hsc hssc
    have hguard : ¬(sc = "" ∨ ssc = "") := by simp [hsc, hssc]
    unfold classify_item_category
    rw [if_neg hguard]
    simp only [hmap, hinner]
    unfold classify_item_category_core
    constructor
    · intro h
      by_cases hmem : list.contains ⟨(api3_parsed resp).1⟩
      · rw [if_pos hmem] at h
        right
        have : lab = (⟨(api3_parsed resp).1⟩ : String) := by
          injection h with h1 h2
          exact h1.symm
        rw [this]
        exact contains_mem.mp hmem
      · rw [if_neg hmem] at h
        left
        injection h with h1 h2
        exact h1.symm
    · intro hmem
      rw [if_neg (fun hc => hmem (contains_mem.mp hc))]

/-- Witness for C1 at a concrete map, parent path and response. -/
theorem claim_C1_witness :
    ((List.lookup "fashion" [("fashion", ["Casual Wear"])] = some ["Casual Wear"]) ∧
      (classify_shopping_subcategory [("fashion", ["Casual Wear"])] "fashion"
          "casual wear|confidence:95%").1 = some ("casual wear", 95) ∧
      ("casual wear" = "" ∨ ("casual wear" : String) ∈ (["Casual Wear"] : List String).map pyLowerStr)) ∧
    ((List.lookup "fashion" [("fashion", [("casual wear", ["t-shirt"])])] =
        some [("casual wear", ["t-shirt"])]) ∧
      (classify_item_category [("fashion", [("casual wear", ["t-shirt"])])] "fashion"
          "casual wear" "socks|confidence:92%").1 = ("", 0)) := by
  refine ⟨⟨by decide, by decide, ?_⟩, by decide, ?_⟩
  · exact (claim_C1.1 [("fashion", ["Casual Wear"])] "fashion" ["Casual Wear"]
      "casual wear|confidence:95%" "casual wear" 95 (by decide) (by decide)).1 (by decide)
  · exact (claim_C1.2 [("fashion", [("casual wear", ["t-shirt"])])] "fashion" "casual wear"
      [("casual wear", ["t-shirt"])] ["t-shirt"] "socks|confidence:92%" "" 0
      (by decide) (by decide) (by decide) (by decide)).2 (by decide)

/-- C4 counterexample: a response carrying a valid label but no
`|confidence` suffix is accepted with confidence 0, so a non-empty
validated label is returned together with confidence 0, refuting the
claimed equivalence `label = "" ⟺ confidence = 0`. -/
theorem claim_C4_cex :
    (classify_shopping_subcategory [("fashion", ["casual wear"])] "fashion"
        "casual wear").1 = some ("casual wear", 0) ∧
    ("casual wear" : String) ≠ "" := by
  exact ⟨by decide, by decide⟩

/-- C4 (amended): provided the allowed set does not contain the empty
string, an empty returned label implies confidence 0 (for APIs 2 and 3);
the converse direction fails (see the counterexample). -/
theorem claim_C4 :
    (∀ (list : List String) (resp lab : String) (conf : Int),
      ("" : String) ∉ list.map pyLowerStr →
      classify_shopping_subcategory_core list resp = some (lab, conf) →
      lab = "" → conf = 0) ∧
    (∀ (list : List String) (resp lab : String) (conf : Int),
      ("" : String) ∉ list →
      classify_item_category_core list resp = (lab, conf) →
      lab = "" → conf = 0) := by
  constructor
  · intro list resp lab conf hnil h hlab
    unfold classify_shopping_subcategory_core at h
    cases hp : api2_parsed resp with
    | none => rw [hp] at h; simp at h
    | some p =>
      rw [hp] at h
      simp only [Option.map_some'] at h
      by_cases hmem : (list.map pyLowerStr).contains ⟨p.1⟩
      · rw [if_pos hmem] at h
        injection h with h1
        injection h1 with h2 h3
        exfalso
        apply hnil
        rw [hlab] at h2
        rw [← h2]
        exact contains_mem.mp hmem
      · rw [if_neg hmem] at h
        injection h with h1
        injection h1 with h2 h3
        exact h3.symm
  · intro list resp lab conf hnil h hlab
    unfold classify_item_category_core at h
    by_cases hmem : list.contains ⟨(api3_parsed resp).1⟩
    · rw [if_pos hmem] at h
      injection h with h1 h2
      exfalso
      apply hnil
      rw [hlab] at h1
      rw [← h1]
      exact contains_mem.mp hmem
    · rw [if_neg hmem] at h
      injection h with h1 h2
      exact h2.symm

/-- Witness for C4 at concrete inputs. -/
theorem claim_C4_witness :
    (("" : String) ∉ (["casual wear"] : List String).map pyLowerStr) ∧
    classify_shopping_subcategory_core ["casual wear"] "|confidence:50%" = some ("", 0) ∧
    (0 : Int) = 0 :=
  ⟨by decide, by decide,
   claim_C4.1 ["casual wear"] "|confidence:50%" "" 0 (by decide) (by decide) rfl⟩

/-- C9 counterexample: in the master pipeline a transport failure of the
completion service propagates out of the classifier as an exception
instead of producing `("", 0)`. -/
theorem claim_C9_cex :
    classify_shopping_subcategoryE [("fashion", ["casual wear"])] "fashion"
        (Except.error ()) = Except.error () ∧
    (Except.error () : Except Unit (Option (String × Int))) ≠
      Except.ok (some ("", 0)) := by
  refine ⟨?_, fun h => Except.noConfusion h⟩
  unfold classify_shopping_subcategoryE
  rw [if_neg (by decide)]
  rfl

/-- C9 (amended): only `app.py` absorbs transport failures at the call
site — `ollama_local` returns `""` on any exception, so its classifiers
yield the empty result; the master pipeline's classifiers re-raise the
exception of `run_model` whenever the guard lets the call happen. -/
theorem claim_C9 :
    (∀ e : Unit, ollama_local (Except.error e) = "") ∧
    (∀ e : Unit, classify_shopping_category_app (Except.error e) = "") ∧
    (∀ (map : List (String × List String)) (sc : String),
      sc ≠ "" → map.lookup sc ≠ none →
      classify_shopping_subcategoryE map sc (Except.error ()) = Except.error ()) := by
  refine ⟨fun e => rfl, fun e => by cases e; decide, ?_⟩
  intro map sc hsc hlk
  unfold classify_shopping_subcategoryE
  rw [if_neg (by simp [hsc, hlk])]
  rfl

/-- Witness for C9 at a concrete map and parent label. -/
theorem claim_C9_witness :
    ("fashion" : String) ≠ "" ∧
    List.lookup "fashion" [("fashion", ["casual wear"])] ≠ none ∧
    classify_shopping_subcategoryE [("fashion", ["casual wear"])] "fashion"
        (Except.error ()) = Except.error () :=
  ⟨by decide, by decide,
   claim_C9.2.2 [("fashion", ["casual wear"])] "fashion" (by decide) (by decide)⟩

/-- C10: when the item name has no whitespace-delimited token after
hyphens are replaced by spaces, the product-noun derivation indexes an
empty list and `generate_skw` raises (models as `none`) instead of
returning a keyword string; the `/generate` endpoint admits such inputs —
it rejects only an empty `item_category`, turning the `IndexError` into a
500 response. -/
theorem claim_C10 :
    (∀ (item_name resp : String),
      pySplitWs (replaceChar '-' ' ' (lowerChars item_name.data)) = [] →
      generate_skw item_name resp = none) ∧
    (∀ resp : String, generate_endpoint "" "shoes" resp = SkwResponse.serverError) ∧
    (∀ resp : String,
      generate_endpoint "name" "" resp = SkwResponse.badRequest "item_category is required") := by
  refine ⟨?_, ?_, ?_⟩
  · intro item_name resp h
    unfold generate_skw skw_final_keywords skw_product_noun
    rw [h]
    rfl
  · intro resp
    unfold generate_endpoint
    rw [if_neg (by decide)]
    have : generate_skw "" resp = none := by
      unfold generate_skw skw_final_keywords skw_product_noun
      rfl
    rw [this]
  · intro resp
    unfold generate_endpoint
    rw [if_pos rfl]

/-- Witness for C10 at the empty item name. -/
theorem claim_C10_witness :
    pySplitWs (replaceChar '-' ' ' (lowerChars ("" : String).data)) = [] ∧
    generate_skw "" "Dress, Summer Dress" = none :=
  ⟨by decide, claim_C10.1 "" "Dress, Summer Dress" (by decide)⟩

/-- C3 counterexample: when Level 1 fails, `process_row` passes the
sentinel `"template"` — not the empty string — as the
`shopping_category` argument of the Level-2 classifier (and likewise into
the attribute-extraction prompt), refuting the claim that dependent
stages always receive the literal empty string. -/
theorem claim_C3_cex :
    (process_row (Except.ok "garbage") (Except.ok "x") (Except.ok "x")
        (Except.ok "k1") (Except.ok "k2") (Except.ok "k3")).arg_level2_main_cat =
      "template" ∧
    (process_row (Except.ok "garbage") (Except.ok "x") (Except.ok "x")
        (Except.ok "k1") (Except.ok "k2") (Except.ok "k3")).arg_ai_item_category =
      "template" ∧
    ("template" : String) ≠ "" := by
  exact ⟨by decide, by decide, by decide⟩

/-- C3 (amended): in `app.py`'s `process_row` the sentinel substitution
happens immediately after each classifier call, and the substituted
output value itself — `"template"` when the stage failed — is what every
dependent stage receives; the downstream classifiers still return the
empty label on that sentinel because `"template"` is not a key of the
taxonomy maps.  The master pipeline's CSV loop performs no sentinel
substitution at all: with an unparseable Level-1 response the emitted row
carries empty labels, never `"template"`. -/
theorem claim_C3 :
    (∀ o1 o2 o3 o4 o5 o6 : Except Unit String,
      (process_row o1 o2 o3 o4 o5 o6).arg_level2_main_cat =
        (process_row o1 o2 o3 o4 o5 o6).shopping_category ∧
      (process_row o1 o2 o3 o4 o5 o6).arg_level3_main_cat =
        (process_row o1 o2 o3 o4 o5 o6).shopping_category ∧
      (process_row o1 o2 o3 o4 o5 o6).arg_level3_sub_cat =
        (process_row o1 o2 o3 o4 o5 o6).shopping_subcategory ∧
      (process_row o1 o2 o3 o4 o5 o6).arg_ai_item_category =
        (process_row o1 o2 o3 o4 o5 o6).item_category) ∧
    (∀ svc : Except Unit String, classify_shopping_subcategory_app "template" svc = "") ∧
    (∀ (sub : String) (svc : Except Unit String),
      classify_item_category_app "template" sub svc = "") ∧
    (∃ row : CsvRow,
      process_csv_row ["fashion"] [] [] [] "t-shirt" "I cannot decide"
          "x" "x" "x" "kw, t-shirt" "d" "a" = some row ∧
      row.shoppingCategory = "" ∧ row.shoppingSubcategory = "" ∧
      row.itemCategory = "" ∧ row.itemSubcategory = "") := by
  refine ⟨fun o1 o2 o3 o4 o5 o6 => ⟨rfl, rfl, rfl, rfl⟩, ?_, ?_, ?_⟩
  · intro svc
    unfold classify_shopping_subcategory_app
    rw [if_pos (Or.inr (by decide))]
  · intro sub svc
    unfold classify_item_category_app
    rw [if_pos (Or.inr (by decide))]
  · exact ⟨_, rfl, by decide, by decide, by decide, by decide⟩


theorem pick_first_max_spec (f : String → Nat) :
    ∀ (l : List String) (bv : String) (bc : Nat),
      pick_first_max (l.map (fun v => (v, f v))) = some (bv, bc) →
      bv ∈ l ∧ bc = f bv ∧ ∀ u ∈ l, f u ≤ bc := by
  intro l
  induction l with
  | nil => intro bv bc h; simp [pick_first_max] at h
  | cons x xs ih =>
    intro bv bc h
    cases hr : pick_first_max (xs.map (fun v => (v, f v))) with
    | none =>
      simp only [List.map_cons, pick_first_max, hr] at h
      injection h with h1
      have hbv : bv = x := congrArg Prod.fst h1.symm
      have hbc : bc = f x := congrArg Prod.snd h1.symm
      subst hbv; subst hbc
      have hxs : xs = [] := by
        have := pick_first_max_eq_none.mp hr
        exact List.map_eq_nil_iff.mp this
      subst hxs
      refine ⟨List.mem_cons_self _ _, rfl, ?_⟩
      intro u hu
      rcases List.mem_cons.mp hu with rfl | hu
      · exact le_refl _
      · simp at hu
    | some b =>
      obtain ⟨pv, pc⟩ := b
      obtain ⟨hmem, hpc, hmax⟩ := ih pv pc hr
      simp only [List.map_cons, pick_first_max, hr] at h
      by_cases hgt : pc > f x
      · rw [if_pos hgt] at h
        injection h with h1
        have hbv : bv = pv := congrArg Prod.fst h1.symm
        have hbc : bc = pc := congrArg Prod.snd h1.symm
        subst hbv; subst hbc
        refine ⟨List.mem_cons_of_mem _ hmem, hpc, ?_⟩
        intro u hu
        rcases List.mem_cons.mp hu with rfl | hu
        · exact Nat.le_of_lt hgt
        · exact hmax u hu
      · rw [if_neg hgt] at h
        injection h with h1
        have hbv : bv = x := congrArg Prod.fst h1.symm
        have hbc : bc = f x := congrArg Prod.snd h1.symm
        subst hbv; subst hbc
        refine ⟨List.mem_cons_self _ _, rfl, ?_⟩
        intro u hu
        rcases List.mem_cons.mp hu with rfl | hu
        · exact le_refl _
        · exact Nat.le_trans (hmax u hu) (Nat.le_of_not_lt hgt)

theorem find?_congr_mem {α : Type} {p q : α → Bool} :
    ∀ l : List α, (∀ a ∈ l, p a = q a) → l.find? p = l.find? q := by
  intro l
  induction l with
  | nil => intro _; rfl
  | cons x xs ih =>
    intro h
    rw [List.find?_cons, List.find?_cons, h x (List.mem_cons_self x xs)]
    cases q x with
    | true => rfl
    | false => exact ih (fun a ha => h a (List.mem_cons_of_mem x ha))

theorem pick_first_max_eq_find (f : String → Nat) :
    ∀ l : List String,
      pick_first_max (l.map (fun v => (v, f v))) =
        (l.find? (fun v => l.all (fun u => f u ≤ f v))).map (fun v => (v, f v)) := by
  intro l
  induction l with
  | nil => rfl
  | cons x xs ih =>
    by_cases hx : xs.all (fun u => decide (f u ≤ f x)) = true
    · have hpx : ((x :: xs).all (fun u => decide (f u ≤ f x))) = true := by
        rw [List.all_cons, hx]
        simp
      rw [List.find?_cons, hpx]
      change pick_first_max (List.map (fun v => (v, f v)) (x :: xs)) = some (x, f x)
      cases hr : pick_first_max (xs.map (fun v => (v, f v))) with
      | none => simp only [List.map_cons, pick_first_max, hr]
      | some b =>
        obtain ⟨pv, pc⟩ := b
        obtain ⟨hmem, hpc, hmax⟩ := pick_first_max_spec f xs pv pc hr
        have hall := List.all_eq_true.mp hx pv hmem
        have hle : pc ≤ f x := by
          rw [hpc]
          simpa using hall
        simp only [List.map_cons, pick_first_max, hr]
        rw [if_neg (by omega)]
    · have hexists : ∃ u ∈ xs, f x < f u := by
        have : ¬ ∀ u ∈ xs, f u ≤ f x := fun hall =>
          hx (List.all_eq_true.mpr (fun u hu => by simpa using hall u hu))
        push_neg at this
        obtain ⟨u, hu, hlt⟩ := this
        exact ⟨u, hu, hlt⟩
      obtain ⟨u, hu, hfu⟩ := hexists
      have hpx : ((x :: xs).all (fun u => decide (f u ≤ f x))) = false := by
        rw [List.all_cons]
        have hf : xs.all (fun u => decide (f u ≤ f x)) = false := by
          cases hv : xs.all (fun u => decide (f u ≤ f x)) with
          | true => exact absurd hv hx
          | false => rfl
        rw [hf]
        simp
      rw [List.find?_cons, hpx]
      change pick_first_max (List.map (fun v => (v, f v)) (x :: xs)) =
        Option.map (fun v => (v, f v))
          (List.find? (fun v => (x :: xs).all (fun u => decide (f u ≤ f v))) xs)
      cases hr : pick_first_max (xs.map (fun v => (v, f v))) with
      | none =>
        exfalso
        have hxs : xs = [] := List.map_eq_nil_iff.mp (pick_first_max_eq_none.mp hr)
        rw [hxs] at hu
        simp at hu
      | some b =>
        obtain ⟨pv, pc⟩ := b
        obtain ⟨hmem, hpc, hmax⟩ := pick_first_max_spec f xs pv pc hr
        have hgt : pc > f x := Nat.lt_of_lt_of_le hfu (hmax u hu)
        simp only [List.map_cons, pick_first_max, hr]
        rw [if_pos hgt]
        rw [hr] at ih
        have hcongr : xs.find? (fun v => (x :: xs).all (fun u => f u ≤ f v)) =
            xs.find? (fun v => xs.all (fun u => f u ≤ f v)) := by
          apply find?_congr_mem
          intro v hv
          rw [List.all_cons]
          cases hqv : xs.all (fun w => decide (f w ≤ f v)) with
          | true =>
            have hxv : f x ≤ f v :=
              Nat.le_trans (Nat.le_of_lt hfu)
                (by simpa using List.all_eq_true.mp hqv u hu)
            simp [hxv]
          | false => simp
        rw [hcongr, ← ih]

theorem most_common_eq_spec (values : List String) :
    most_common_value values = most_common_spec values := by
  unfold most_common_value most_common_spec
  rw [pick_first_max_eq_find (vote_count values) (firstDedup values)]
  congr 1
  apply find?_congr_mem
  intro v hv
  rw [Bool.eq_iff_iff, List.all_eq_true, List.all_eq_true]
  constructor
  · intro h u hu
    exact h u (mem_firstDedup.mpr hu)
  · intro h u hu
    exact h u (mem_firstDedup.mp hu)

/-- C6: the JSON API's per-attribute aggregation selects exactly the
specification's winner — the most frequent surviving value with ties
broken by first-occurrence order — and reports the arithmetic mean of the
confidences of only the winning votes, together with vote count, total
surviving samples and vote percentage; in particular the
green/green/blue example with confidences 0.9/0.8/0.7 yields
`("green", 0.85)` with `votes = 2`, `total = 3`. -/
theorem claim_C6 :
    (∀ values : List String, most_common_value values = most_common_spec values) ∧
    (∀ (pairs : List (String × ℚ)) (f : Feature) (d : VoteDetail),
      aggregate_attr pairs = some (f, d) →
      f.confidence =
        ((pairs.filter (fun p => p.1 = f.value)).map Prod.snd).sum /
          (vote_count (pairs.map Prod.fst) f.value : ℚ) ∧
      d.votes = vote_count (pairs.map Prod.fst) f.value ∧
      d.total_images = pairs.length ∧
      d.vote_percentage = ((d.votes : ℚ) / (d.total_images : ℚ)) * 100 ∧
      d.all_values = pairs.map Prod.fst) ∧
    extract_features_with_voting
        [[("color", "green", 9/10)], [("color", "green", 8/10)], [("color", "blue", 7/10)]]
        ["color"] =
      ([("color", ⟨"green", 17/20⟩)],
        Meta.voting 3 [("color", ⟨2, 3, 200/3, ["green", "green", "blue"]⟩)]) := by
  refine ⟨most_common_eq_spec, ?_, ?_⟩
  · intro pairs f d h
    cases hmc : most_common_value (pairs.map Prod.fst) with
    | none =>
      simp only [aggregate_attr, hmc] at h
      exact Option.noConfusion h
    | some wc =>
      obtain ⟨wv, wcnt⟩ := wc
      have hspec := pick_first_max_spec (vote_count (pairs.map Prod.fst))
        (firstDedup (pairs.map Prod.fst)) wv wcnt hmc
      have hcnt : wcnt = vote_count (pairs.map Prod.fst) wv := hspec.2.1
      simp only [aggregate_attr, hmc] at h
      injection h with h1
      have hf : Feature.mk wv
          (((pairs.filter (fun p => p.1 = wv)).map Prod.snd).sum / (wcnt : ℚ)) = f :=
        congrArg Prod.fst h1
      have hd : VoteDetail.mk wcnt (pairs.map Prod.fst).length
          (((wcnt : ℚ) / ((pairs.map Prod.fst).length : ℚ)) * 100) (pairs.map Prod.fst) = d :=
        congrArg Prod.snd h1
      subst hf; subst hd
      refine ⟨?_, hcnt, ?_, rfl, rfl⟩
      · show ((pairs.filter (fun p => p.1 = wv)).map Prod.snd).sum / (wcnt : ℚ) =
          ((pairs.filter (fun p => p.1 = wv)).map Prod.snd).sum /
            (vote_count (pairs.map Prod.fst) wv : ℚ)
        rw [hcnt]
      · show (pairs.map Prod.fst).length = pairs.length
        simp
  · have h1 : extract_features_with_voting
        [[("color", "green", 9/10)], [("color", "green", 8/10)], [("color", "blue", 7/10)]]
        ["color"] =
        ([("color", ⟨"green", ((9:ℚ)/10 + (8/10 + 0))/((2:Nat):ℚ)⟩)],
          Meta.voting 3
            [("color", ⟨2, 3, (((2:Nat):ℚ)/((3:Nat):ℚ))*100, ["green", "green", "blue"]⟩)]) := rfl
    rw [h1]
    norm_num

/-- Witness for C6's aggregation clause at the concrete example. -/
theorem claim_C6_witness :
    aggregate_attr [("green", (9:ℚ)/10), ("green", 8/10), ("blue", 7/10)] =
      some (⟨"green", ((9:ℚ)/10 + (8/10 + 0))/((2:Nat):ℚ)⟩,
        ⟨2, 3, (((2:Nat):ℚ)/((3:Nat):ℚ))*100, ["green", "green", "blue"]⟩) ∧
    (((9:ℚ)/10 + (8/10 + 0))/((2:Nat):ℚ) =
        (([("green", (9:ℚ)/10), ("green", 8/10), ("blue", 7/10)].filter
            (fun p => p.1 = "green")).map Prod.snd).sum /
          (vote_count (["green", "green", "blue"]) "green" : ℚ) ∧
      2 = vote_count (["green", "green", "blue"]) "green" ∧
      3 = ([("green", (9:ℚ)/10), ("green", 8/10), ("blue", 7/10)] :
            List (String × ℚ)).length ∧
      (((2:Nat):ℚ)/((3:Nat):ℚ))*100 = ((2 : ℚ) / (3 : ℚ)) * 100 ∧
      ["green", "green", "blue"] =
        ([("green", (9:ℚ)/10), ("green", 8/10), ("blue", 7/10)]).map Prod.fst) := by
  refine ⟨rfl, ?_⟩
  have := claim_C6.2.1 [("green", (9:ℚ)/10), ("green", 8/10), ("blue", 7/10)]
    ⟨"green", ((9:ℚ)/10 + (8/10 + 0))/((2:Nat):ℚ)⟩
    ⟨2, 3, (((2:Nat):ℚ)/((3:Nat):ℚ))*100, ["green", "green", "blue"]⟩ rfl
  simpa using this

theorem collect_votes_not_sentinel (results : List ImgResult) (attr v : String)
    (conf : ℚ) (hmem : (v, conf) ∈ collect_votes results attr) :
    pyLowerStr v ∉ sentinel_values := by
  intro hsent
  unfold collect_votes at hmem
  rw [List.mem_filterMap] at hmem
  obtain ⟨img, _, himg⟩ := hmem
  cases hlk : img.lookup attr with
  | none =>
    simp only [hlk] at himg
    exact Option.noConfusion himg
  | some vc =>
    simp only [hlk] at himg
    by_cases hs : sentinel_values.contains (pyLowerStr vc.1)
    · rw [if_pos hs] at himg
      exact Option.noConfusion himg
    · rw [if_neg hs] at himg
      injection himg with h1
      apply hs
      rw [show vc.1 = v from congrArg Prod.fst h1]
      exact contains_mem.mpr hsent

theorem aggregate_attr_value_mem (pairs : List (String × ℚ))
    (fd : Feature × VoteDetail) (h : aggregate_attr pairs = some fd) :
    fd.1.value ∈ pairs.map Prod.fst := by
  cases hmc : most_common_value (pairs.map Prod.fst) with
  | none =>
    simp only [aggregate_attr, hmc] at h
    exact Option.noConfusion h
  | some wc =>
    obtain ⟨wv, wcnt⟩ := wc
    have hspec := pick_first_max_spec (vote_count (pairs.map Prod.fst))
      (firstDedup (pairs.map Prod.fst)) wv wcnt hmc
    have hmem := mem_firstDedup.mp hspec.1
    simp only [aggregate_attr, hmc] at h
    injection h with h1
    rw [← h1]
    exact hmem

/-- C7 counterexample: the voting path of `extract_features`
(`extract_image_features.py`) performs no sentinel filtering, so the
sentinel value `"no"` is a candidate and is selected as the majority
value. -/
theorem claim_C7_cex :
    (List.lookup "color"
        (extract_features_voting [[("color", "no", 1)], [("color", "no", 1)]]
          ["color"])).map Feature.value = some "no" ∧
    pyLowerStr "no" ∈ sentinel_values := ⟨rfl, by decide⟩

/-- C7 (amended): in the JSON API's `extract_features_with_voting`
— though not in `extract_image_features.py`'s `extract_features` — every
surviving vote and every returned feature value is non-sentinel
(compared case-insensitively). -/
theorem claim_C7 :
    (∀ (results : List ImgResult) (attr v : String) (conf : ℚ),
      (v, conf) ∈ collect_votes results attr → pyLowerStr v ∉ sentinel_values) ∧
    (∀ (results : List ImgResult) (attributes : List String) (attr : String) (f : Feature),
      (attr, f) ∈ (extract_features_with_voting results attributes).1 →
      pyLowerStr f.value ∉ sentinel_values) := by
  refine ⟨collect_votes_not_sentinel, ?_⟩
  intro results attributes attr f hmem
  unfold extract_features_with_voting at hmem
  by_cases hc : results.length = 1 ∧ results.headD [] ≠ []
  · rw [if_pos hc] at hmem
    rw [List.mem_filterMap] at hmem
    obtain ⟨avc, _, havc⟩ := hmem
    by_cases hs : sentinel_values.contains (pyLowerStr avc.2.1)
    · rw [if_pos hs] at havc
      exact Option.noConfusion havc
    · rw [if_neg hs] at havc
      injection havc with h1
      intro hsent
      apply hs
      have h2 : Feature.mk avc.2.1 avc.2.2 = f := congrArg Prod.snd h1
      have hfv : f.value = avc.2.1 := by rw [← h2]
      rw [← hfv]
      exact contains_mem.mpr hsent
  · rw [if_neg hc] at hmem
    rw [List.mem_filterMap] at hmem
    obtain ⟨a, _, hself⟩ := hmem
    cases hagg : aggregate_attr (collect_votes results a) with
    | none => rw [hagg] at hself; exact Option.noConfusion hself
    | some fd =>
      rw [hagg] at hself
      simp only [Option.map_some'] at hself
      injection hself with h1
      have hf : fd.1 = f := congrArg Prod.snd h1
      have hv := aggregate_attr_value_mem (collect_votes results a) fd hagg
      rw [hf] at hv
      rw [List.mem_map] at hv
      obtain ⟨p, hp, hpv⟩ := hv
      have := collect_votes_not_sentinel results a p.1 p.2 hp
      rw [hpv] at this
      exact this

/-- Witness for C7 at a concrete vote. -/
theorem claim_C7_witness :
    (("green", (9:ℚ)/10) ∈ collect_votes [[("color", "green", (9:ℚ)/10)]] "color") ∧
    pyLowerStr "green" ∉ sentinel_values := by
  have hcv : collect_votes [[("color", "green", (9:ℚ)/10)]] "color" =
      [("green", (9:ℚ)/10)] := rfl
  have hmem : ("green", (9:ℚ)/10) ∈ collect_votes [[("color", "green", (9:ℚ)/10)]] "color" := by
    rw [hcv]
    exact List.mem_cons_self _ _
  exact ⟨hmem, claim_C7.1 [[("color", "green", (9:ℚ)/10)]] "color" "green" ((9:ℚ)/10) hmem⟩

theorem lookup_filterMap_none {γ β : Type} (g : String → Option γ)
    (k : String → γ → β) (l : List String) (attr : String) (h : g attr = none) :
    (l.filterMap (fun a => (g a).map (fun c => (a, k a c)))).lookup attr = none := by
  induction l with
  | nil => rfl
  | cons a as ih =>
    cases hg : g a with
    | none =>
      simp only [List.filterMap_cons, hg, Option.map_none']
      exact ih
    | some c =>
      simp only [List.filterMap_cons, hg, Option.map_some']
      have hne : (attr == a) = false := by
        apply beq_eq_false_iff_ne.mpr
        intro hcontra
        rw [hcontra] at h
        rw [h] at hg
        exact Option.noConfusion hg
      rw [List.lookup, hne]
      exact ih

/-- C8 counterexample: when every per-image value for a requested
attribute is a sentinel, the attribute is omitted from the features — but
nothing in the returned metadata flags the omission: the voting details
contain no entry for it either (the event is only printed to the server
log). -/
theorem claim_C8_cex :
    (extract_features_with_voting
        [[("color", "No", (9:ℚ)/10)], [("color", "N/A", (8:ℚ)/10)]]
        ["color"]).1.lookup "color" = none ∧
    ((extract_features_with_voting
        [[("color", "No", (9:ℚ)/10)], [("color", "N/A", (8:ℚ)/10)]]
        ["color"]).2).details.lookup "color" = none ∧
    collect_votes [[("color", "No", (9:ℚ)/10)], [("color", "N/A", (8:ℚ)/10)]] "color" = [] :=
  ⟨rfl, rfl, rfl⟩

/-- C8 (amended): in the multi-image voting path, an attribute with zero
surviving votes is omitted from the returned feature set and is likewise
absent from the metadata's voting details — the omission is not flagged
anywhere in the returned metadata. -/
theorem claim_C8 :
    ∀ (results : List ImgResult) (attributes : List String) (attr : String),
      results.length ≠ 1 →
      collect_votes results attr = [] →
      (extract_features_with_voting results attributes).1.lookup attr = none ∧
      ((extract_features_with_voting results attributes).2).details.lookup attr = none := by
  intro results attributes attr hlen hcv
  have hagg : aggregate_attr (collect_votes results attr) = none := by
    rw [hcv]
    rfl
  have hcond : ¬(results.length = 1 ∧ results.headD [] ≠ []) := fun hc => hlen hc.1
  unfold extract_features_with_voting
  rw [if_neg hcond]
  constructor
  · exact lookup_filterMap_none (fun a => aggregate_attr (collect_votes results a))
      (fun _ fd => fd.1) attributes attr hagg
  · exact lookup_filterMap_none (fun a => aggregate_attr (collect_votes results a))
      (fun _ fd => fd.2) attributes attr hagg

/-- Witness for C8 at a concrete all-sentinel aggregation. -/
theorem claim_C8_witness :
    ([[("color", "unknown", (1:ℚ))], [("color", "no", (1:ℚ))]] : List ImgResult).length ≠ 1 ∧
    collect_votes [[("color", "unknown", (1:ℚ))], [("color", "no", (1:ℚ))]] "color" = [] ∧
    ((extract_features_with_voting [[("color", "unknown", (1:ℚ))], [("color", "no", (1:ℚ))]]
        ["color"]).1.lookup "color" = none ∧
      ((extract_features_with_voting [[("color", "unknown", (1:ℚ))], [("color", "no", (1:ℚ))]]
        ["color"]).2).details.lookup "color" = none) :=
  ⟨by decide, rfl,
   claim_C8 [[("color", "unknown", (1:ℚ))], [("color", "no", (1:ℚ))]] ["color"] "color"
     (by decide) rfl⟩

theorem toLower_eq (c : Char) :
    c.toLower = if c.toNat ≥ 65 ∧ c.toNat ≤ 90 then Char.ofNat (c.toNat + 32) else c := rfl

theorem toUpper_eq (c : Char) :
    c.toUpper = if c.toNat ≥ 97 ∧ c.toNat ≤ 122 then Char.ofNat (c.toNat - 32) else c := rfl

theorem char_toNat_ofNat {n : Nat} (h : n.isValidChar) : (Char.ofNat n).toNat = n := by
  rw [Char.ofNat, dif_pos h]
  rfl

theorem toLower_toLower (c : Char) : c.toLower.toLower = c.toLower := by
  by_cases h : c.toNat ≥ 65 ∧ c.toNat ≤ 90
  · have hv : (c.toNat + 32).isValidChar := Or.inl (by omega)
    have h1 : c.toLower = Char.ofNat (c.toNat + 32) := by rw [toLower_eq, if_pos h]
    rw [h1, toLower_eq, char_toNat_ofNat hv, if_neg (by omega)]
  · have h1 : c.toLower = c := by rw [toLower_eq, if_neg h]
    rw [h1, h1]

theorem toLower_toUpper_of_fix {c : Char} (h : c.toLower = c) : c.toUpper.toLower = c := by
  by_cases hu : c.toNat ≥ 97 ∧ c.toNat ≤ 122
  · have h1 : c.toUpper = Char.ofNat (c.toNat - 32) := by rw [toUpper_eq, if_pos hu]
    have hv : (c.toNat - 32).isValidChar := Or.inl (by omega)
    rw [h1, toLower_eq, char_toNat_ofNat hv, if_pos (by omega)]
    have h2 : c.toNat - 32 + 32 = c.toNat := by omega
    rw [h2, Char.ofNat_toNat]
  · have h1 : c.toUpper = c := by rw [toUpper_eq, if_neg hu]
    rw [h1, h]

theorem lower_titleAux (l : Chars) (h : ∀ c ∈ l, c.toLower = c) (b : Bool) :
    lowerChars (titleAux b l) = l := by
  induction l generalizing b with
  | nil => rfl
  | cons c cs ih =>
    have hc := h c (List.mem_cons_self _ _)
    have hcs : ∀ x ∈ cs, x.toLower = x := fun x hx => h x (List.mem_cons_of_mem _ hx)
    simp only [titleAux, lowerChars, List.map_cons]
    have htail : List.map Char.toLower (titleAux c.isAlpha cs) = cs := ih hcs c.isAlpha
    rw [htail]
    congr 1
    by_cases ha : c.isAlpha
    · rw [if_pos ha]
      cases b with
      | true =>
        show c.toLower.toLower = c
        rw [toLower_toLower, hc]
      | false =>
        show c.toUpper.toLower = c
        exact toLower_toUpper_of_fix hc
    · rw [if_neg ha]
      exact hc

theorem lower_pyTitle (l : Chars) (h : ∀ c ∈ l, c.toLower = c) :
    lowerChars (pyTitle l) = l :=
  lower_titleAux l h false

theorem fixed_of_mem_lowerChars {c : Char} {l : Chars} (h : c ∈ lowerChars l) :
    c.toLower = c := by
  unfold lowerChars at h
  rw [List.mem_map] at h
  obtain ⟨a, _, ha⟩ := h
  rw [← ha]
  exact toLower_toLower a

theorem mem_of_mem_pyStrip {c : Char} {l : Chars} (h : c ∈ pyStrip l) : c ∈ l := by
  unfold pyStrip at h
  rw [List.mem_reverse] at h
  have h2 := (List.dropWhile_sublist _).subset h
  rw [List.mem_reverse] at h2
  exact (List.dropWhile_sublist _).subset h2

theorem mem_of_mem_splitPred (p : Char → Bool) :
    ∀ (l piece : Chars), piece ∈ splitPred p l → ∀ c ∈ piece, c ∈ l := by
  intro l
  induction l with
  | nil =>
    intro piece hp c hc
    simp only [splitPred, List.mem_singleton] at hp
    subst hp
    simp at hc
  | cons x xs ih =>
    intro piece hp c hc
    simp only [splitPred] at hp
    cases hs : splitPred p xs with
    | nil =>
      rw [hs] at hp
      simp only [List.mem_singleton] at hp
      subst hp
      simp at hc
    | cons hd t =>
      simp only [hs] at hp
      by_cases hpx : p x
      · rw [if_pos hpx] at hp
        rcases List.mem_cons.mp hp with rfl | hp2
        · simp at hc
        · exact List.mem_cons_of_mem _ (ih piece (by rw [hs]; exact hp2) c hc)
      · rw [if_neg hpx] at hp
        rcases List.mem_cons.mp hp with rfl | hp2
        · rcases List.mem_cons.mp hc with rfl | hc2
          · exact List.mem_cons_self _ _
          · exact List.mem_cons_of_mem _
              (ih hd (by rw [hs]; exact List.mem_cons_self _ _) c hc2)
        · exact List.mem_cons_of_mem _
            (ih piece (by rw [hs]; exact List.mem_cons_of_mem _ hp2) c hc)

theorem mem_of_getLast? {α : Type} {l : List α} {a : α} (h : l.getLast? = some a) :
    a ∈ l := by
  obtain ⟨hne, heq⟩ := List.mem_getLast?_eq_getLast (l := l) (x := a) h
  rw [heq]
  exact List.getLast_mem hne

theorem fixed_of_mem_replace {c : Char} {l : Chars}
    (h : c ∈ replaceChar '-' ' ' (lowerChars l)) : c.toLower = c := by
  unfold replaceChar at h
  rw [List.mem_map] at h
  obtain ⟨a, ha, hEq⟩ := h
  by_cases h2 : a = '-'
  · rw [← hEq, if_pos h2]
    decide
  · rw [← hEq, if_neg h2]
    exact fixed_of_mem_lowerChars ha

theorem noun_fixed (item_name : String) (noun : Chars)
    (hn : skw_product_noun item_name = some noun) : ∀ c ∈ noun, c.toLower = c := by
  intro c hc
  unfold skw_product_noun at hn
  have hmem := mem_of_getLast? hn
  unfold pySplitWs at hmem
  have hsp := (List.mem_filter.mp hmem).1
  exact fixed_of_mem_replace (mem_of_mem_splitPred _ _ noun hsp c hc)

theorem fixed_of_mem_keywords0 {kw X : Chars}
    (h : kw ∈ ((splitChar ',' (lowerChars X)).map pyStrip).filter (fun k => k ≠ [])) :
    ∀ c ∈ kw, c.toLower = c := by
  intro c hc
  have h0 := (List.mem_filter.mp h).1
  rw [List.mem_map] at h0
  obtain ⟨piece, hpiece, hEq⟩ := h0
  rw [← hEq] at hc
  have hc2 := mem_of_mem_pyStrip hc
  unfold splitChar at hpiece
  have hc3 := mem_of_mem_splitPred _ _ piece hpiece c hc2
  exact fixed_of_mem_lowerChars hc3

theorem head_take_firstDedup (noun : Chars) (ks : List Chars)
    (hhead : ks.head? = some noun) :
    ((firstDedup ks).take 5).head? = some noun := by
  cases ks with
  | nil => simp at hhead
  | cons a t =>
    injection hhead with h
    subst h
    simp [firstDedup]

theorem keywords2_head (noun : Chars) (ks1 : List Chars) :
    (if ks1 = [] ∨ ks1.head? ≠ some noun then
        noun :: ks1.filter (fun kw => kw ≠ noun)
      else ks1).head? = some noun := by
  by_cases hc : ks1 = [] ∨ ks1.head? ≠ some noun
  · rw [if_pos hc]
    rfl
  · rw [if_neg hc]
    push_neg at hc
    exact hc.2

theorem skw_tail_spec (noun : Chars) (ks1 : List Chars)
    (hfix1 : ∀ kw ∈ ks1, ∀ c ∈ kw, c.toLower = c)
    (hnounfix : ∀ c ∈ noun, c.toLower = c) :
    ∀ kw ∈ (firstDedup (if ks1 = [] ∨ ks1.head? ≠ some noun then
        noun :: ks1.filter (fun kw => kw ≠ noun) else ks1)).take 5,
      ∀ c ∈ kw, c.toLower = c := by
  intro kw hkw
  have h2 := mem_firstDedup.mp ((List.take_sublist _ _).subset hkw)
  by_cases hc : ks1 = [] ∨ ks1.head? ≠ some noun
  · rw [if_pos hc] at h2
    rcases List.mem_cons.mp h2 with rfl | h3
    · exact hnounfix
    · exact hfix1 kw (List.mem_filter.mp h3).1
  · rw [if_neg hc] at h2
    exact hfix1 kw h2

theorem skw_final_keywords_spec (item_name response : String) (noun : Chars)
    (hn : skw_product_noun item_name = some noun) :
    ∃ L, skw_final_keywords item_name response = some L ∧
      L.head? = some noun ∧ L.length ≤ 5 ∧ L.Nodup ∧
      (∀ kw ∈ L, ∀ c ∈ kw, c.toLower = c) := by
  unfold skw_final_keywords
  rw [hn]
  refine ⟨_, rfl, head_take_firstDedup noun _ (keywords2_head noun _), ?_,
    List.Nodup.sublist (List.take_sublist _ _) (firstDedup_nodup _),
    skw_tail_spec noun _ (fun kw hkw => fixed_of_mem_keywords0 (List.mem_filter.mp hkw).1)
      (noun_fixed item_name noun hn)⟩
  rw [List.length_take]
  exact min_le_left _ _

/-- C5 counterexample: the item name `"-"` is non-empty, yet it has no
whitespace-delimited token once hyphens are replaced by spaces, so
`generate_skw` raises (`none`) and no keyword string of the claimed shape
exists. -/
theorem claim_C5_cex :
    ("-" : String) ≠ "" ∧ generate_skw "-" "Dress, Summer Dress" = none :=
  ⟨by decide, by decide⟩

/-- C5 (amended): whenever the item name has at least one
whitespace-delimited token after hyphens are treated as spaces, the SKW
output is the `", "`-join of a title-cased phrase list whose first phrase
is exactly the title-cased product noun (the last token of the
lower-cased item name), with at most 5 phrases and no duplicate
phrases. -/
theorem claim_C5 :
    ∀ (item_name response : String) (noun : Chars),
      skw_product_noun item_name = some noun →
      ∃ L : List Chars,
        skw_final_keywords item_name response = some L ∧
        generate_skw item_name response =
          some ⟨List.intercalate (", ".data) (L.map pyTitle)⟩ ∧
        (L.map pyTitle).head? = some (pyTitle noun) ∧
        L.length ≤ 5 ∧
        (L.map pyTitle).Nodup := by
  intro item_name response noun hn
  obtain ⟨L, hL, hhead, hlen, hnodup, hfix⟩ :=
    skw_final_keywords_spec item_name response noun hn
  refine ⟨L, hL, ?_, ?_, hlen, ?_⟩
  · unfold generate_skw
    rw [hL]
    rfl
  · rw [List.head?_map, hhead]
    rfl
  · apply List.Nodup.map_on ?_ hnodup
    intro x hx y hy hxy
    have hlx : lowerChars (pyTitle x) = lowerChars (pyTitle y) := by rw [hxy]
    rw [lower_pyTitle x (hfix x hx), lower_pyTitle y (hfix y hy)] at hlx
    exact hlx

/-- Witness for C5 at a concrete item name and response. -/
theorem claim_C5_witness :
    skw_product_noun "Cotton T-Shirt" = some "shirt".data ∧
    (∃ L : List Chars,
      skw_final_keywords "Cotton T-Shirt" "T-Shirt, Summer Dress" = some L ∧
      generate_skw "Cotton T-Shirt" "T-Shirt, Summer Dress" =
        some ⟨List.intercalate (", ".data) (L.map pyTitle)⟩ ∧
      (L.map pyTitle).head? = some (pyTitle "shirt".data) ∧
      L.length ≤ 5 ∧
      (L.map pyTitle).Nodup) :=
  ⟨by decide, claim_C5 "Cotton T-Shirt" "T-Shirt, Summer Dress" "shirt".data (by decide)⟩
